import Mathlib

/-!
Verification of the dradis wifi scanning library (`src/lib.rs`).

The library exposes one operation, `WifiScan::scan`, which opens a socket to
the wireless subsystem (`iw_sockets_open`), queries range information
(`iw_get_range_info`), issues a scan (`iw_scan`), and then walks the
driver-owned linked list of `WirelessScan` nodes, decoding each node into a
`WirelessNetwork` record (encryption classification from `key_flags`, ESSID
text from the fixed 34-byte buffer, a copy of the stats block).

The embedding below models the C structs with `Nat`/`Int` fields (`u8`/`u16`
fields as `Nat`, `c_int` fields as `Int`), byte buffers as `List Nat`, and
raw pointers as `Nat` addresses into a heap function, with address `0`
playing the role of the null pointer.  Panics (`unwrap`, the explicit
`panic!`) are modelled as `none`/`panicked` outcomes, and the unbounded
`while !result.is_null()` loop is modelled as a fuel-indexed function that
returns `outOfFuel` when the given number of iterations does not finish the
walk.  The driver calls made by `scan` are recorded in an operation trace so
that resource-handling properties (which driver entry points are invoked, in
which order, how many times) can be stated.

Floating point content (the `freq : f64` field of `WirelessConfig` and the
payload of `WirelessNetwork.freq : Option<f64>`) is never read or
constructed by `WifiScan::scan`; the `f64` field is omitted from the
embedded config and the always-`None` option payloads (`ap_addr4`,
`ap_addr6`, `freq`, `key`, `mode` is kept as the real enumeration) are
modelled with `Unit` payloads.
-/

namespace Dradis

/-- Embeds the `IwQuality` struct (three `u8` fields). -/
structure IwQuality where
  quality : Nat
  level : Nat
  noise : Nat
deriving DecidableEq

/-- Embeds the `IwStats` struct (`u16` status plus an `IwQuality`). -/
structure IwStats where
  status : Nat
  quality : IwQuality
deriving DecidableEq

/-- Embeds the `IwParam` struct (`i32` value, `u8` fixed, `u8` disabled, `u16` flags). -/
structure IwParam where
  value : Int
  fixed : Nat
  disabled : Nat
  flags : Nat
deriving DecidableEq

/-- Embeds the `WirelessMode` enumeration. -/
inductive WirelessMode where
  | auto
  | adHoc
  | infra
  | master
  | repeat
  | second
  | monitor
deriving DecidableEq

/-- Embeds the `WirelessConfig` struct.  Byte arrays (`name : [c_char; 17]`,
`key : [c_uchar; 64]`, `essid : [c_char; 34]`) become `List Nat`; `c_int`
fields become `Int`.  The `freq : f64` field is omitted (floating point,
never read by `WifiScan::scan`). -/
structure WirelessConfig where
  name : List Nat
  has_nwid : Int
  nwid : IwParam
  has_freq : Int
  freq_flags : Int
  has_key : Int
  key : List Nat
  key_size : Int
  key_flags : Int
  has_essid : Int
  essid_on : Int
  essid : List Nat
  essid_len : Int
  has_mode : Int
  mode : Int
deriving DecidableEq

/-- Embeds the raw `WirelessScan` node.  The `next : *const WirelessScan`
pointer becomes a `Nat` address (`0` = null); the `ap_addr : sockaddr` field
is never read by `WifiScan::scan` and is omitted. -/
structure WirelessScan where
  next : Nat
  has_ap_addr : Int
  b : WirelessConfig
  stats : IwStats
  has_stats : Int
  maxbitrate : IwParam
  has_maxbitrate : Int
deriving DecidableEq

/-- Embeds the decoded `WirelessNetwork` record, fields in source order.
Option payloads that `WifiScan::scan` never constructs (`SocketAddrV4`,
`SocketAddrV6`, `f64`, `WirelessKey`) are modelled as `Unit`. -/
structure WirelessNetwork where
  ap_addr4 : Option Unit
  ap_addr6 : Option Unit
  stats : Option IwStats
  maxbitrate : Option Int
  freq : Option Unit
  key : Option Unit
  essid : Option String
  mode : Option WirelessMode
  encryption : String
deriving DecidableEq

/-- The `IW_AUTH_WPA_VERSION_DISABLED` constant (`0x01`, a `u8` cast to `c_int` at use). -/
def IW_AUTH_WPA_VERSION_DISABLED : Int := 0x01

/-- The `IW_AUTH_WPA_VERSION_WPA` constant (`0x02`). -/
def IW_AUTH_WPA_VERSION_WPA : Int := 0x02

/-- The `IW_AUTH_WPA_VERSION_WPA2` constant (`0x04`). -/
def IW_AUTH_WPA_VERSION_WPA2 : Int := 0x04

/-- Embeds the encryption classification of `WifiScan::scan` (the `answer`
binding, src/lib.rs lines 463-472): bitwise tests of `key_flags` against the
three `IW_AUTH_WPA_VERSION_*` constants, in source order, falling back to
the string `"Error"`. -/
def answer (key_flags : Int) : String :=
  if Int.land key_flags IW_AUTH_WPA_VERSION_DISABLED > 0 then "None"
  else if Int.land key_flags IW_AUTH_WPA_VERSION_WPA > 0 then "WPA"
  else if Int.land key_flags IW_AUTH_WPA_VERSION_WPA2 > 0 then "WPA2"
  else "Error"

/-- The Unicode replacement character emitted by lossy UTF-8 decoding. -/
def replacementChar : Char := Char.ofNat 0xFFFD

/-- Whether a byte is a UTF-8 continuation byte (`0x80..=0xBF`). -/
def isCont (b : Nat) : Bool := 0x80 ≤ b && b < 0xC0

/-- Worker for `utf8Lossy`, structurally recursive on a step counter so the
kernel can evaluate it; every step consumes at least one byte, so a counter
equal to the byte count is never exhausted. -/
def utf8LossyGo : Nat → List Nat → List Char
  | 0, _ => []
  | _ + 1, [] => []
  | steps + 1, b :: rest =>
    if b < 0x80 then Char.ofNat b :: utf8LossyGo steps rest
    else if b < 0xC2 then replacementChar :: utf8LossyGo steps rest
    else if b < 0xE0 then
      match rest with
      | [] => [replacementChar]
      | b2 :: rest2 =>
        if isCont b2 then
          Char.ofNat ((b - 0xC0) * 0x40 + (b2 - 0x80)) :: utf8LossyGo steps rest2
        else replacementChar :: utf8LossyGo steps rest
    else if b < 0xF0 then
      match rest with
      | [] => [replacementChar]
      | b2 :: rest2 =>
        if (if b = 0xE0 then 0xA0 ≤ b2 && b2 < 0xC0
            else if b = 0xED then 0x80 ≤ b2 && b2 < 0xA0
            else isCont b2) then
          match rest2 with
          | [] => [replacementChar]
          | b3 :: rest3 =>
            if isCont b3 then
              Char.ofNat ((b - 0xE0) * 0x1000 + (b2 - 0x80) * 0x40 + (b3 - 0x80)) ::
                utf8LossyGo steps rest3
            else replacementChar :: utf8LossyGo steps rest2
        else replacementChar :: utf8LossyGo steps rest
    else if b < 0xF5 then
      match rest with
      | [] => [replacementChar]
      | b2 :: rest2 =>
        if (if b = 0xF0 then 0x90 ≤ b2 && b2 < 0xC0
            else if b = 0xF4 then 0x80 ≤ b2 && b2 < 0x90
            else isCont b2) then
          match rest2 with
          | [] => [replacementChar]
          | b3 :: rest3 =>
            if isCont b3 then
              match rest3 with
              | [] => [replacementChar]
              | b4 :: rest4 =>
                if isCont b4 then
                  Char.ofNat ((b - 0xF0) * 0x40000 + (b2 - 0x80) * 0x1000 +
                      (b3 - 0x80) * 0x40 + (b4 - 0x80)) :: utf8LossyGo steps rest4
                else replacementChar :: utf8LossyGo steps rest3
            else replacementChar :: utf8LossyGo steps rest2
        else replacementChar :: utf8LossyGo steps rest
    else replacementChar :: utf8LossyGo steps rest

/-- Models `String::from_utf8_lossy` (used via `CStr::to_string_lossy` at
src/lib.rs line 485): standard UTF-8 decoding where each maximal invalid
subpart is replaced by U+FFFD, driven by `utf8LossyGo` with a step budget
equal to the byte count. -/
def utf8Lossy (l : List Nat) : List Char := utf8LossyGo l.length l

/-- Models `CStr::from_bytes_with_nul` (src/lib.rs line 478): succeeds
exactly when the byte run is nonempty, ends with a zero byte, and contains
no interior zero byte; on success the C string's content is the run without
its terminating zero. -/
def cStrFromBytesWithNul (bs : List Nat) : Option (List Nat) :=
  if bs.getLast? = some 0 ∧ bs.dropLast.all (fun b => b ≠ 0) then some bs.dropLast
  else none

/-- Embeds the ESSID decoding block of `WifiScan::scan` (src/lib.rs lines
473-488), operating on the transmuted 34-byte buffer.  The outer `Option` is
the panic effect: `none` models the `unwrap` panic when `position` finds no
zero byte, and the `panic!` on a `CStr` parse failure; `some v` is normal
completion with `network_name = v`. -/
def networkName (has_essid : Int) (essidBuf : List Nat) : Option (Option String) :=
  if has_essid = 1 then
    match essidBuf.findIdx? (fun byte => byte == 0) with
    | none => none
    | some i =>
      match cStrFromBytesWithNul (essidBuf.take (i + 1)) with
      | none => none
      | some content => some (some (String.mk (utf8Lossy content)))
  else some none

/-- Embeds the per-node decoding of the loop body of `WifiScan::scan`
(src/lib.rs lines 462-499): the `WirelessNetwork` value pushed onto `list`
for one raw node.  `none` models a panic while decoding the ESSID. -/
def decodeNetwork (r : WirelessScan) : Option WirelessNetwork :=
  match networkName r.b.has_essid r.b.essid with
  | none => none
  | some nm =>
    some { ap_addr4 := none
           ap_addr6 := none
           stats := some r.stats
           maxbitrate := none
           freq := none
           key := none
           essid := nm
           mode := none
           encryption := answer r.b.key_flags }

/-- Result of running the `while !result.is_null()` loop of `WifiScan::scan`
for a given number of iterations. -/
inductive TraverseResult where
  | ok (networks : List WirelessNetwork)
  | panicked
  | outOfFuel
deriving DecidableEq

/-- Embeds the result-chain walk of `WifiScan::scan` (src/lib.rs lines
457-502).  The source loop is unbounded (`while !result.is_null()`); here it
is indexed by fuel, so `outOfFuel` for every fuel value means the source
loop never terminates from that state. -/
def scanLoop (heap : Nat → WirelessScan) : Nat → Nat → TraverseResult
  | 0, _ => .outOfFuel
  | fuel + 1, ptr =>
    if ptr = 0 then .ok []
    else
      match decodeNetwork (heap ptr) with
      | none => .panicked
      | some w =>
        match scanLoop heap fuel (heap ptr).next with
        | .ok rest => .ok (w :: rest)
        | r => r

/-- The driver entry points reachable from `WifiScan::scan`.  The extern
block of src/lib.rs declares only `iw_sockets_open`, `iw_get_range_info` and
`iw_scan`; no socket-closing function is declared or called anywhere in the
source, so `closeSock` exists in this trace alphabet purely so that the
absence of close calls can be stated. -/
inductive DriverOp where
  | openSock
  | getRangeInfo
  | doScan (version : Int)
  | closeSock
deriving DecidableEq

/-- Embeds `std::io::ErrorKind` as used by the source (only `InvalidData`
appears). -/
inductive IoErrorKind where
  | invalidData
deriving DecidableEq

/-- Embeds the `std::io::Error` values built by the source (kind plus
message). -/
structure IoError where
  kind : IoErrorKind
  msg : String
deriving DecidableEq

/-- The one error value `WifiScan::scan` ever constructs (src/lib.rs lines
445 and 454 build identical values). -/
def iwError : IoError := { kind := .invalidData, msg := "Got an error from the iw library" }

/-- Behaviour of the foreign driver for one invocation: the return codes of
`iw_get_range_info` and `iw_scan`, the `we_version_compiled` byte the driver
writes into the range block, and the result-chain head address and heap the
driver hands back through `iw_scan`. -/
structure DriverEnv where
  rangeRet : Int
  weVersionCompiled : Int
  scanRet : Int
  head : Nat
  heap : Nat → WirelessScan

/-- Outcome of one `WifiScan::scan` invocation. -/
inductive ScanOutcome where
  | ok (networks : List WirelessNetwork)
  | err (e : IoError)
  | panicked
  | outOfFuel
deriving DecidableEq

/-- Embeds `WifiScan::scan` (src/lib.rs lines 432-504) over a driver
behaviour, returning the outcome together with the trace of driver entry
points invoked.  Stages in source order: `iw_sockets_open` (line 436), the
`CString::new(interface).unwrap()` that panics on an interior NUL byte
(line 437), `iw_get_range_info` with early error return on a negative code
(lines 443-446), `iw_scan` with early error return on a negative code
(lines 447-455), then the decoding loop. -/
def scan (env : DriverEnv) (interface : List Nat) (fuel : Nat) :
    ScanOutcome × List DriverOp :=
  let ops0 := [DriverOp.openSock]
  if interface.contains 0 then (.panicked, ops0)
  else
    let ops1 := ops0 ++ [DriverOp.getRangeInfo]
    if env.rangeRet < 0 then (.err iwError, ops1)
    else
      let ops2 := ops1 ++ [DriverOp.doScan env.weVersionCompiled]
      if env.scanRet < 0 then (.err iwError, ops2)
      else
        match scanLoop env.heap fuel env.head with
        | .ok l => (.ok l, ops2)
        | .panicked => (.panicked, ops2)
        | .outOfFuel => (.outOfFuel, ops2)

/-- An all-zero `WirelessConfig` (buffers zero-filled at their C sizes). -/
def zeroConfig : WirelessConfig :=
  { name := List.replicate 17 0
    has_nwid := 0
    nwid := { value := 0, fixed := 0, disabled := 0, flags := 0 }
    has_freq := 0
    freq_flags := 0
    has_key := 0
    key := List.replicate 64 0
    key_size := 0
    key_flags := 0
    has_essid := 0
    essid_on := 0
    essid := List.replicate 34 0
    essid_len := 0
    has_mode := 0
    mode := 0 }

/-- An all-zero raw scan node. -/
def zeroScan : WirelessScan :=
  { next := 0
    has_ap_addr := 0
    b := zeroConfig
    stats := { status := 0, quality := { quality := 0, level := 0, noise := 0 } }
    has_stats := 0
    maxbitrate := { value := 0, fixed := 0, disabled := 0, flags := 0 }
    has_maxbitrate := 0 }

/-- The byte string `"wlan0"`, a well-formed interface name. -/
def wlan0 : List Nat := [119, 108, 97, 110, 48]

/-- Closed enumeration of encryption classes named by the specification. -/
inductive EncryptionKind where
  | none
  | wpa
  | wpa2
  | unknown
deriving DecidableEq

/-- Modelled from the spec: `decodeEncryption` as §4.3 words it — fixed
priority order over the three recognized bits (`disabled` = bit 0, `WPA` =
bit 1, `WPA2` = bit 2 of the raw bit-flags value), with `Unknown` when none
of the three is set.  This is the spec-side definition for the refinement
comparison with `answer`. -/
def decodeEncryptionSpec (flags : Int) : EncryptionKind :=
  if flags.testBit 0 then .none
  else if flags.testBit 1 then .wpa
  else if flags.testBit 2 then .wpa2
  else .unknown

/-- The specification's names for the encryption classes, as the strings the
decoded record would carry. -/
def encryptionKindName : EncryptionKind → String
  | .none => "None"
  | .wpa => "WPA"
  | .wpa2 => "WPA2"
  | .unknown => "Unknown"

/-- The strings the source actually produces for each class: identical to
`encryptionKindName` except that the fallback class is rendered `"Error"`
(src/lib.rs line 471). -/
def encryptionOutputName : EncryptionKind → String
  | .none => "None"
  | .wpa => "WPA"
  | .wpa2 => "WPA2"
  | .unknown => "Error"

/-- `isChain heap ptr ns` says that starting at address `ptr` the heap holds
exactly the null-terminated node list `ns`: the well-formed-chain layouts of
the specification. -/
def isChain (heap : Nat → WirelessScan) : Nat → List WirelessScan → Prop
  | ptr, [] => ptr = 0
  | ptr, n :: rest => ptr ≠ 0 ∧ heap ptr = n ∧ isChain heap n.next rest

/-- Node-by-node decoding of a chain given as a list, `none` when some node
panics the decoder; the list-level counterpart of `scanLoop`. -/
def decodeAll : List WirelessScan → Option (List WirelessNetwork)
  | [] => some []
  | n :: rest =>
    match decodeNetwork n, decodeAll rest with
    | some w, some ws => some (w :: ws)
    | _, _ => none

/-- A raw node whose `next` pointer refers back to its own address `1`: a
cyclic one-node chain. -/
def cyclicScan : WirelessScan := { zeroScan with next := 1 }

/-- The heap holding the cyclic chain of `cyclicScan`. -/
def cyclicHeap : Nat → WirelessScan := fun _ => cyclicScan

/-- A driver behaviour that succeeds at every stage and hands back the
cyclic chain. -/
def cyclicEnv : DriverEnv :=
  { rangeRet := 0, weVersionCompiled := 0, scanRet := 0, head := 1, heap := cyclicHeap }

/-- A raw node flagged as carrying an ESSID whose 34-byte buffer contains no
zero byte (every byte is `0x41`). -/
def noNulNode : WirelessScan :=
  { zeroScan with b := { zeroConfig with has_essid := 1, essid := List.replicate 34 65 } }

/-- The heap holding `noNulNode` as a well-formed one-node chain at address
`1` (its `next` pointer is null). -/
def noNulHeap : Nat → WirelessScan := fun _ => noNulNode

/-- A driver behaviour that fails the range query. -/
def rangeFailEnv : DriverEnv :=
  { rangeRet := -1, weVersionCompiled := 0, scanRet := 0, head := 0, heap := fun _ => zeroScan }

/-- A driver behaviour that passes the range query and fails the scan request. -/
def scanFailEnv : DriverEnv :=
  { rangeRet := 0, weVersionCompiled := 0, scanRet := -1, head := 0, heap := fun _ => zeroScan }

/-- A driver behaviour that succeeds with an empty result chain. -/
def emptyChainEnv : DriverEnv :=
  { rangeRet := 0, weVersionCompiled := 0, scanRet := 0, head := 0, heap := fun _ => zeroScan }

/-!  Theorems settling the claims. -/

/-- C1: the claim says the control channel handle opened at the start of
`WifiScan::scan` is released exactly once on every exit path.  In fact the
source declares no closing function at all and the operation trace of every
invocation — success, range-query failure, scan-request failure, panic —
contains zero close operations, so the handle is leaked on every path. -/
theorem scan_trace_never_closes_channel (env : DriverEnv) (interface : List Nat)
    (fuel : Nat) :
    ((scan env interface fuel).2).count DriverOp.closeSock = 0 := by
  by_cases h0 : (0 : Nat) ∈ interface
  · simp [scan, h0, List.count_cons, List.count_nil]
  · by_cases h1 : env.rangeRet < 0
    · simp [scan, h0, h1, List.count_cons, List.count_nil]
    · by_cases h2 : env.scanRet < 0
      · simp [scan, h0, h1, h2, List.count_cons, List.count_nil]
      · cases hl : scanLoop env.heap fuel env.head <;>
          simp [scan, h0, h1, h2, hl, List.count_cons, List.count_nil]

/-- Helper for C3: the traversal loop of `WifiScan::scan` never finishes on
the cyclic one-node chain, whatever iteration budget it is given. -/
theorem scanLoop_cyclic_out_of_fuel (fuel : Nat) :
    scanLoop cyclicHeap fuel 1 = .outOfFuel := by
  induction fuel with
  | zero => rfl
  | succ n ih =>
    have hd : decodeNetwork (cyclicHeap 1) = decodeNetwork cyclicScan := rfl
    simp only [scanLoop, hd]
    have hnext : (cyclicHeap 1).next = 1 := rfl
    rw [hnext] at *
    simp [ih, decodeNetwork, networkName, cyclicScan, zeroScan, zeroConfig, cyclicHeap]

/-- C3: the claim says chain traversal is capped at a fixed defensive node
count and a longer (e.g. cyclic) chain fails with `MalformedResultChain`.
The source loop `while !result.is_null()` has no bound and no such error: on
a cyclic chain the whole scan fails to terminate (it runs out of any finite
iteration budget instead of returning). -/
theorem cyclic_chain_scan_never_terminates (fuel : Nat) :
    (scan cyclicEnv wlan0 fuel).1 = .outOfFuel := by
  have h := scanLoop_cyclic_out_of_fuel fuel
  simp [scan, cyclicEnv, wlan0]
  simp [cyclicEnv] at h
  simp [h]

/-- C4: the claim says the ESSID decode uses the buffer end when no zero
byte is present and never fails or aborts.  In fact, on a presence-flagged
buffer holding no zero byte the source calls `.position(...).unwrap()` on
`None` and panics, aborting the scan. -/
theorem essid_without_nul_panics :
    networkName 1 (List.replicate 34 65) = none := by decide

/-- C6: the claim says each failing stage yields a distinguishable error.
In fact a range-query failure and a scan-request failure return the one
identical error value (kind `InvalidData`, message
`"Got an error from the iw library"`), so a caller cannot tell the two
stages apart; channel-open failure is never even detected and no
malformed-chain error exists in the source. -/
theorem range_and_scan_failures_indistinguishable :
    rangeFailEnv.rangeRet < 0 ∧ 0 ≤ scanFailEnv.rangeRet ∧ scanFailEnv.scanRet < 0 ∧
    (scan rangeFailEnv wlan0 1).1 = .err iwError ∧
    (scan scanFailEnv wlan0 1).1 = .err iwError := by
  refine ⟨by decide, by decide, by decide, rfl, rfl⟩

/-- C8: with the presence flag false (`has_essid = 0`) the ESSID decode
yields an absent name for any buffer content, and with the flag set and a
buffer starting `"AB"`, a zero byte, then any padding it yields the text
`"AB"`, without panicking. -/
theorem essid_flag_gate_and_ab :
    (∀ buf : List Nat, networkName 0 buf = some none) ∧
    (∀ padding : List Nat, networkName 1 (65 :: 66 :: 0 :: padding) = some (some "AB")) := by
  constructor
  · intro buf; rfl
  · intro padding
    simp [networkName, List.findIdx?_cons, List.take_succ_cons, cStrFromBytesWithNul,
      utf8Lossy, utf8LossyGo, replacementChar, isCont]

/-- C9: any interface name containing a NUL byte makes `WifiScan::scan`
panic at the `CString::new(interface).unwrap()` call, surfacing as a panic
rather than as a value of the declared error type. -/
theorem interior_nul_interface_panics (env : DriverEnv) (interface : List Nat)
    (fuel : Nat) (h : (0 : Nat) ∈ interface) :
    (scan env interface fuel).1 = .panicked := by
  simp [scan, h]

/-- Witness for C9 at the concrete interface byte string `[119, 0, 97]`. -/
theorem interior_nul_interface_panics_witness :
    (scan emptyChainEnv [119, 0, 97] 1).1 = .panicked :=
  interior_nul_interface_panics emptyChainEnv [119, 0, 97] 1 (by decide)

/-- C10: for every raw node whose `has_essid` field differs from the exact
value `1` — including `0`, `2` and `-1` — the decoded record's `essid` is
absent (and the node decodes without panicking). -/
theorem essid_absent_unless_flag_exactly_one (r : WirelessScan)
    (h : r.b.has_essid ≠ 1) :
    (decodeNetwork r).map WirelessNetwork.essid = some none := by
  simp [decodeNetwork, networkName, h]

/-- Witness for C10 at a concrete node carrying `has_essid = 2` and a
nonempty ESSID buffer. -/
theorem essid_absent_unless_flag_exactly_one_witness :
    (decodeNetwork { zeroScan with
        b := { zeroConfig with has_essid := 2, essid := List.replicate 34 65 } }).map
      WirelessNetwork.essid = some none :=
  essid_absent_unless_flag_exactly_one _ (by decide)

/-- Bridge between the source's mask test and the specification's notion of
a bit being set: masking with the power of two `2 ^ i` yields a positive
value exactly when bit `i` of the flags value is set, for every integer
flags value including negative ones. -/
theorem land_two_pow_pos (flags : Int) (i : Nat) :
    0 < Int.land flags ((2 ^ i : Nat) : Int) ↔ flags.testBit i = true := by
  cases flags with
  | ofNat m =>
    have h : Int.land (Int.ofNat m) ((2 ^ i : Nat) : Int) = Int.ofNat (m &&& 2 ^ i) := rfl
    rw [h, Nat.and_two_pow]
    cases hb : m.testBit i with
    | false => simp [Int.testBit, hb]
    | true =>
      simp only [Int.testBit, hb, Bool.toNat_true, one_mul]
      simp [Int.ofNat_pos, Nat.pos_pow_of_pos]
  | negSucc m =>
    have h : Int.land (Int.negSucc m) ((2 ^ i : Nat) : Int) =
        Int.ofNat (Nat.ldiff (2 ^ i) m) := rfl
    have hval : Nat.ldiff (2 ^ i) m = if m.testBit i then 0 else 2 ^ i := by
      apply Nat.eq_of_testBit_eq
      intro k
      rw [Nat.testBit_ldiff]
      by_cases hik : i = k
      · subst hik
        cases hb : m.testBit i <;> simp [Nat.testBit_two_pow, hb]
      · cases hb : m.testBit i <;>
          simp [Nat.testBit_two_pow, hik, Nat.zero_testBit, hb, Nat.testBit_two_pow_of_ne]
    rw [h, hval]
    cases hb : m.testBit i with
    | true => simp [Int.testBit, hb]
    | false =>
      simp only [Int.testBit, hb, Bool.not_false, if_neg Bool.false_ne_true]
      simp [Int.ofNat_pos, Nat.pos_pow_of_pos]

/-- C2 counterexample: at the raw flags value `0` (none of the three
recognized bits set) the source classifies the network as the string
`"Error"`, not as the `Unknown` classification the claim demands. -/
theorem encryption_fallback_counterexample :
    answer 0 = "Error" ∧ encryptionKindName (decodeEncryptionSpec 0) = "Unknown" ∧
    answer 0 ≠ encryptionKindName (decodeEncryptionSpec 0) := by decide

/-- C2 as amended: for every raw bit-flags value the classification follows
the spec's fixed priority order — disabled bit first, then WPA, then WPA2 —
but the fallback when none of the three recognized bits is set is rendered
as the string `"Error"` rather than `Unknown`. -/
theorem encryption_priority_order (flags : Int) :
    answer flags = encryptionOutputName (decodeEncryptionSpec flags) := by
  have h0 := land_two_pow_pos flags 0
  have h1 := land_two_pow_pos flags 1
  have h2 := land_two_pow_pos flags 2
  norm_num at h0 h1 h2
  by_cases t0 : flags.testBit 0 <;> by_cases t1 : flags.testBit 1 <;>
    by_cases t2 : flags.testBit 2 <;>
      simp [answer, decodeEncryptionSpec, encryptionOutputName,
        IW_AUTH_WPA_VERSION_DISABLED, IW_AUTH_WPA_VERSION_WPA,
        IW_AUTH_WPA_VERSION_WPA2, h0, h1, h2, t0, t1, t2]

/-- C5 counterexample: a well-formed (null-terminated, one-node) chain whose
node is flagged as carrying an ESSID with no zero byte in its buffer makes
the decoding loop panic instead of producing a one-entry result list. -/
theorem wellformed_chain_decode_panics :
    isChain noNulHeap 1 [noNulNode] ∧ scanLoop noNulHeap 2 1 = .panicked :=
  ⟨⟨by decide, rfl, rfl⟩, by decide⟩

/-- C5 as amended: for every well-formed null-terminated chain of N nodes —
including N = 0 — whose nodes all decode without panicking, the traversal
yields exactly the N decoded entries in the driver's order; an empty chain
is not an error. -/
theorem chain_decodes_to_list_in_order (heap : Nat → WirelessScan) :
    ∀ (ns : List WirelessScan) (ptr : Nat) (ws : List WirelessNetwork) (fuel : Nat),
      isChain heap ptr ns → decodeAll ns = some ws → ns.length < fuel →
      scanLoop heap fuel ptr = .ok ws ∧ ws.length = ns.length := by
  intro ns
  induction ns with
  | nil =>
    intro ptr ws fuel hch hdec hfuel
    have hptr : ptr = 0 := hch
    cases fuel with
    | zero => simp at hfuel
    | succ f =>
      simp only [decodeAll, Option.some_inj] at hdec
      subst hdec hptr
      simp [scanLoop]
  | cons n rest ih =>
    intro ptr ws fuel hch hdec hfuel
    obtain ⟨hne, hheap, hch2⟩ := hch
    cases fuel with
    | zero => simp at hfuel
    | succ f =>
      cases hdn : decodeNetwork n with
      | none => simp [decodeAll, hdn] at hdec
      | some w =>
        cases hda : decodeAll rest with
        | none => simp [decodeAll, hdn, hda] at hdec
        | some ws2 =>
          have hws : ws = w :: ws2 := by
            simp [decodeAll, hdn, hda] at hdec
            exact hdec.symm
          have hlen : rest.length < f := by
            simp at hfuel
            omega
          obtain ⟨hrec, hreclen⟩ := ih n.next ws2 f hch2 hda hlen
          subst hws
          refine ⟨?_, by simp [hreclen]⟩
          simp [scanLoop, hne, hheap, hdn, hrec]

/-- A raw node advertising ESSID `"Home"` with the WPA bit set, whose `next`
pointer refers to address `2`. -/
def homeNode : WirelessScan :=
  { zeroScan with
      next := 2
      b := { zeroConfig with
               has_essid := 1
               essid := 72 :: 111 :: 109 :: 101 :: List.replicate 30 0
               key_flags := 2 } }

/-- A raw node with no ESSID and the disabled bit set, terminating the
chain. -/
def disabledNode : WirelessScan :=
  { zeroScan with b := { zeroConfig with has_essid := 0, key_flags := 1 } }

/-- A heap laying out the two-node chain `homeNode` (address 1) then
`disabledNode` (address 2). -/
def pairHeap : Nat → WirelessScan :=
  fun a => if a = 1 then homeNode else if a = 2 then disabledNode else zeroScan

/-- The decoded record of `homeNode`. -/
def homeNetwork : WirelessNetwork :=
  { ap_addr4 := none, ap_addr6 := none, stats := some zeroScan.stats,
    maxbitrate := none, freq := none, key := none, essid := some "Home",
    mode := none, encryption := "WPA" }

/-- The decoded record of `disabledNode`. -/
def disabledNetwork : WirelessNetwork :=
  { ap_addr4 := none, ap_addr6 := none, stats := some zeroScan.stats,
    maxbitrate := none, freq := none, key := none, essid := none,
    mode := none, encryption := "None" }

/-- Witness for C5 on the concrete two-node chain `homeNode`,
`disabledNode`. -/
theorem chain_decodes_to_list_in_order_witness :
    scanLoop pairHeap 3 1 = .ok [homeNetwork, disabledNetwork] ∧
    ([homeNetwork, disabledNetwork] : List WirelessNetwork).length =
      ([homeNode, disabledNode] : List WirelessScan).length :=
  chain_decodes_to_list_in_order pairHeap [homeNode, disabledNode] 1
    [homeNetwork, disabledNetwork] 3 ⟨by decide, rfl, by decide, rfl, rfl⟩
    (by decide) (by decide)

/-- A raw node whose presence flags say: no stats (`has_stats = 0`), but a
max bitrate is present (`has_maxbitrate = 1`, value 54000000). -/
def statsGateNode : WirelessScan :=
  { zeroScan with
      has_stats := 0
      has_maxbitrate := 1
      maxbitrate := { value := 54000000, fixed := 1, disabled := 0, flags := 0 } }

/-- The decoded record of `statsGateNode`. -/
def statsGateNetwork : WirelessNetwork :=
  { ap_addr4 := none, ap_addr6 := none, stats := some statsGateNode.stats,
    maxbitrate := none, freq := none, key := none, essid := none,
    mode := none, encryption := "Error" }

/-- C7 counterexample: a node with `has_stats = 0` decodes to a record whose
`stats` field is present anyway, and with `has_maxbitrate = 1` its
`maxbitrate` field is absent anyway — the opposite of presence-flag gating
in both directions. -/
theorem stats_bitrate_not_flag_gated :
    statsGateNode.has_stats = 0 ∧ statsGateNode.has_maxbitrate = 1 ∧
    (decodeNetwork statsGateNode).map (fun w => (w.stats, w.maxbitrate)) =
      some (some statsGateNode.stats, none) := by decide

/-- C7 as amended: for every raw node that decodes, the record's `stats`
field is unconditionally a copy of the node's stats block regardless of
`has_stats`, and its `maxbitrate` field is unconditionally absent regardless
of `has_maxbitrate`. -/
theorem stats_always_copied_bitrate_always_absent (r : WirelessScan)
    (w : WirelessNetwork) (h : decodeNetwork r = some w) :
    w.stats = some r.stats ∧ w.maxbitrate = none := by
  unfold decodeNetwork at h
  cases hnm : networkName r.b.has_essid r.b.essid with
  | none => rw [hnm] at h; cases h
  | some nm =>
    rw [hnm] at h
    cases h
    exact ⟨rfl, rfl⟩

/-- Witness for C7 at the concrete node `statsGateNode`. -/
theorem stats_always_copied_bitrate_always_absent_witness :
    statsGateNetwork.stats = some statsGateNode.stats ∧
    statsGateNetwork.maxbitrate = none :=
  stats_always_copied_bitrate_always_absent statsGateNode statsGateNetwork (by decide)

end Dradis
